import Mathlib

/-!
Shallow embedding of the battery / quiet-hours / scheduler logic of the
raspberry-pi-weather-display repository (`src/rpiweather`), together with
theorems settling the specification claims about it.

Conventions of the embedding:
* Python `int` is modelled by `ℤ` (or `ℕ` where the value is known
  non-negative), Python `float` arithmetic that stays exact on the values
  involved is modelled by `ℚ`.
* `datetime` values are modelled at second granularity by `DateTime`
  (a day index plus hour/minute/second); chronological order is the order
  of `DateTime.toSeconds`.
* Fallible Python code is modelled with `Except PyError`; an uncaught
  exception is an `Except.error`.
-/

namespace RpiWeather

/-- Python exception kinds relevant to the modelled code paths. -/
inductive PyError where
  | attributeError
  | valueError
  | keyError
  | indexError
  | typeError
deriving DecidableEq, Repr

/-- Model of `datetime` at second granularity: `day` is an absolute day index,
`hour`/`minute`/`second` the time of day (microseconds are not modelled). -/
structure DateTime where
  day : ℤ
  hour : ℕ
  minute : ℕ
  second : ℕ
deriving DecidableEq, Repr

/-- Total seconds of a `DateTime`; chronological comparison of two
`datetime` values is comparison of their `toSeconds`. -/
def DateTime.toSeconds (ts : DateTime) : ℤ :=
  ((ts.day * 24 + (ts.hour : ℤ)) * 60 + (ts.minute : ℤ)) * 60 + (ts.second : ℤ)

/-- Embeds `rpiweather.config.QuietHours`: a time window given by whole hours
`start` and `end`, each in `0..23` (the bound is a pydantic validator and is
carried as a hypothesis where a theorem needs it). -/
structure QuietHours where
  start : ℕ
  «end» : ℕ
deriving DecidableEq, Repr

/-- Embeds `QuietHours.is_quiet_time` (config.py): same-day window when
`start < end`, otherwise a window wrapping midnight; only the hour of the
given time is consulted. -/
def QuietHours.is_quiet_time (q : QuietHours) (now : DateTime) : Bool :=
  if q.start < q.«end» then
    decide (q.start ≤ now.hour ∧ now.hour < q.«end»)
  else
    decide (now.hour ≥ q.start ∨ now.hour < q.«end»)

/-- Embeds `rpiweather.power.in_quiet_hours`: `False` for no window; a configured
`QuietHours` object is truthy and has `is_quiet_time`, so that method is
the branch taken. -/
def in_quiet_hours (ts : DateTime) (quiet : Option QuietHours) : Bool :=
  match quiet with
  | none => false
  | some q => q.is_quiet_time ts

/-- Embeds `QuietHoursManager.seconds_until_quiet_end` (power.py): 0 outside the
window, otherwise seconds until `ts.replace(hour=end, minute=0, second=0)`,
pushed to the next day when that candidate is not strictly after `ts`. -/
def seconds_until_quiet_end (ts : DateTime) (quiet : Option QuietHours) : ℤ :=
  match quiet with
  | none => 0
  | some q =>
    if in_quiet_hours ts (some q) = false then 0
    else
      let candidate : DateTime := ⟨ts.day, q.«end», 0, 0⟩
      let candidate : DateTime :=
        if candidate.toSeconds ≤ ts.toSeconds then
          ⟨candidate.day + 1, candidate.hour, candidate.minute, candidate.second⟩
        else candidate
      candidate.toSeconds - ts.toSeconds

/-- Embeds `BatteryManager.get_refresh_delay_minutes` (power.py).  The
`int(base_minutes * 1.5)` step is `base_minutes * 3 / 2` in `ℕ`:
`base_minutes * 1.5` is the exact rational `3·b/2` and Python `int`
truncates the non-negative result toward zero. -/
def get_refresh_delay_minutes (base_minutes : ℕ) (soc : ℤ) : ℕ :=
  if soc ≤ 5 then base_minutes * 4
  else if soc ≤ 15 then base_minutes * 3
  else if soc ≤ 25 then base_minutes * 2
  else if soc ≤ 50 then base_minutes * 3 / 2
  else base_minutes

/-- The claim-relevant fields of `rpiweather.config.WeatherConfig`. -/
structure WeatherConfig where
  refresh_minutes : ℕ
  poweroff_soc : ℤ
  quiet_hours : Option QuietHours
  stay_awake_url : Option String
deriving DecidableEq, Repr

/-- Embeds `BatteryManager.should_power_off` (power.py): power off when
`soc <= poweroff_soc`, or when a quiet-hours window is configured (a
truthy `quiet_hours`) and `now` is inside it. -/
def should_power_off (cfg : WeatherConfig) (soc : ℤ) (now : DateTime) : Bool :=
  if soc ≤ cfg.poweroff_soc then true
  else if cfg.quiet_hours.isSome && in_quiet_hours now cfg.quiet_hours then true
  else false

/-- C1: `get_refresh_delay_minutes` returns `baseMinutes*4` for `soc ≤ 5`,
`baseMinutes*3` for `5 < soc ≤ 15`, `baseMinutes*2` for `15 < soc ≤ 25`,
the integer truncation of `baseMinutes*1.5` for `25 < soc ≤ 50`, and
`baseMinutes` otherwise; for `baseMinutes = 15` and
`soc ∈ {100,75,50,25,15,5,0}` it returns `{15,15,22,30,45,60,60}`. -/
theorem get_refresh_delay_minutes_spec (baseMinutes : ℕ) (soc : ℤ) :
    (soc ≤ 5 → get_refresh_delay_minutes baseMinutes soc = baseMinutes * 4) ∧
    (5 < soc ∧ soc ≤ 15 → get_refresh_delay_minutes baseMinutes soc = baseMinutes * 3) ∧
    (15 < soc ∧ soc ≤ 25 → get_refresh_delay_minutes baseMinutes soc = baseMinutes * 2) ∧
    (25 < soc ∧ soc ≤ 50 → get_refresh_delay_minutes baseMinutes soc = baseMinutes * 3 / 2) ∧
    (50 < soc → get_refresh_delay_minutes baseMinutes soc = baseMinutes) ∧
    get_refresh_delay_minutes 15 100 = 15 ∧
    get_refresh_delay_minutes 15 75 = 15 ∧
    get_refresh_delay_minutes 15 50 = 22 ∧
    get_refresh_delay_minutes 15 25 = 30 ∧
    get_refresh_delay_minutes 15 15 = 45 ∧
    get_refresh_delay_minutes 15 5 = 60 ∧
    get_refresh_delay_minutes 15 0 = 60 := by
  unfold get_refresh_delay_minutes
  refine ⟨?_, ?_, ?_, ?_, ?_, by decide, by decide, by decide, by decide,
    by decide, by decide, by decide⟩ <;>
      intro h <;> split_ifs <;> omega

/-- Witness for C1: the theorem applied at `baseMinutes = 15` with
concrete `soc` values in three different tiers. -/
theorem get_refresh_delay_minutes_spec_witness :
    get_refresh_delay_minutes 15 40 = 15 * 3 / 2 ∧
    get_refresh_delay_minutes 15 3 = 15 * 4 ∧
    get_refresh_delay_minutes 15 60 = 15 :=
  ⟨(get_refresh_delay_minutes_spec 15 40).2.2.2.1 (by decide),
   (get_refresh_delay_minutes_spec 15 3).1 (by decide),
   (get_refresh_delay_minutes_spec 15 60).2.2.2.2.1 (by decide)⟩

/-- C2: `should_power_off` is true iff `soc` is at or below the configured
threshold, or a quiet-hours window is configured and `now` lies inside it;
in particular it is false above threshold outside quiet hours, true at or
below threshold regardless of time, and true above threshold inside an
active quiet window. -/
theorem should_power_off_spec (cfg : WeatherConfig) (soc : ℤ) (now : DateTime) :
    (should_power_off cfg soc now = true ↔
      soc ≤ cfg.poweroff_soc ∨
        (cfg.quiet_hours.isSome = true ∧ in_quiet_hours now cfg.quiet_hours = true)) ∧
    (cfg.poweroff_soc < soc → in_quiet_hours now cfg.quiet_hours = false →
      should_power_off cfg soc now = false) ∧
    (soc ≤ cfg.poweroff_soc → should_power_off cfg soc now = true) ∧
    (cfg.poweroff_soc < soc → in_quiet_hours now cfg.quiet_hours = true →
      should_power_off cfg soc now = true) := by
  cases hq : cfg.quiet_hours with
  | none =>
    by_cases hs : soc ≤ cfg.poweroff_soc <;>
      simp_all [should_power_off, in_quiet_hours, hq, hs]
  | some q =>
    by_cases hs : soc ≤ cfg.poweroff_soc <;>
      by_cases hi : in_quiet_hours now (some q) = true <;>
        simp_all [should_power_off, hq, hs, hi]

/-- Witness for C2: the theorem applied at a concrete configuration,
state of charge, and time, one instance per conditional conjunct. -/
theorem should_power_off_spec_witness :
    should_power_off ⟨120, 8, some ⟨22, 6⟩, none⟩ 50 ⟨0, 12, 0, 0⟩ = false ∧
    should_power_off ⟨120, 8, some ⟨22, 6⟩, none⟩ 8 ⟨0, 12, 0, 0⟩ = true ∧
    should_power_off ⟨120, 8, some ⟨22, 6⟩, none⟩ 50 ⟨0, 23, 0, 0⟩ = true :=
  ⟨(should_power_off_spec ⟨120, 8, some ⟨22, 6⟩, none⟩ 50 ⟨0, 12, 0, 0⟩).2.1
     (by decide) (by decide),
   (should_power_off_spec ⟨120, 8, some ⟨22, 6⟩, none⟩ 8 ⟨0, 12, 0, 0⟩).2.2.1
     (by decide),
   (should_power_off_spec ⟨120, 8, some ⟨22, 6⟩, none⟩ 50 ⟨0, 23, 0, 0⟩).2.2.2
     (by decide) (by decide)⟩

/-- C3: the quiet check is false with no window; with `start < end` it is
true exactly on the half-open hour interval `[start, end)`; with
`start ≥ end` (wrapping midnight) it is true exactly when
`hour ≥ start` or `hour < end`; the `end` boundary is exclusive, as the
concrete examples for windows `(1,5)` and `(22,6)` show. -/
theorem in_quiet_hours_spec (now : DateTime) :
    in_quiet_hours now none = false ∧
    (∀ q : QuietHours, q.start < q.«end» →
      (in_quiet_hours now (some q) = true ↔ q.start ≤ now.hour ∧ now.hour < q.«end»)) ∧
    (∀ q : QuietHours, q.«end» ≤ q.start →
      (in_quiet_hours now (some q) = true ↔ q.start ≤ now.hour ∨ now.hour < q.«end»)) ∧
    in_quiet_hours ⟨0, 2, 0, 0⟩ (some ⟨1, 5⟩) = true ∧
    in_quiet_hours ⟨0, 0, 0, 0⟩ (some ⟨1, 5⟩) = false ∧
    in_quiet_hours ⟨0, 5, 0, 0⟩ (some ⟨1, 5⟩) = false ∧
    in_quiet_hours ⟨0, 23, 0, 0⟩ (some ⟨22, 6⟩) = true ∧
    in_quiet_hours ⟨0, 3, 0, 0⟩ (some ⟨22, 6⟩) = true ∧
    in_quiet_hours ⟨0, 7, 0, 0⟩ (some ⟨22, 6⟩) = false := by
  refine ⟨rfl, ?_, ?_, by decide, by decide, by decide, by decide, by decide, by decide⟩
  · intro q h
    simp [in_quiet_hours, QuietHours.is_quiet_time, if_pos h]
  · intro q h
    simp [in_quiet_hours, QuietHours.is_quiet_time, if_neg (Nat.not_lt.mpr h)]

/-- Witness for C3: the interval characterizations applied at concrete
windows and hours. -/
theorem in_quiet_hours_spec_witness :
    (in_quiet_hours ⟨0, 2, 0, 0⟩ (some ⟨1, 5⟩) = true ↔ 1 ≤ 2 ∧ 2 < 5) ∧
    (in_quiet_hours ⟨0, 7, 0, 0⟩ (some ⟨22, 6⟩) = true ↔ 22 ≤ 7 ∨ 7 < 6) :=
  ⟨(in_quiet_hours_spec ⟨0, 2, 0, 0⟩).2.1 ⟨1, 5⟩ (by decide),
   (in_quiet_hours_spec ⟨0, 7, 0, 0⟩).2.2.1 ⟨22, 6⟩ (by decide)⟩

/-- C7: `seconds_until_quiet_end` returns 0 outside the window (or with
no window configured); inside the window it returns the seconds from `now`
to the next instant with hour `end` and zero minutes and seconds, taken on
the following day when that instant is not strictly after `now`; window
`(1,5)` at 02:00 gives 10800 and wrapping window `(22,6)` at 23:00 gives
25200. -/
theorem seconds_until_quiet_end_spec (ts : DateTime) (quiet : Option QuietHours) :
    (in_quiet_hours ts quiet = false → seconds_until_quiet_end ts quiet = 0) ∧
    (∀ q : QuietHours, quiet = some q → in_quiet_hours ts quiet = true →
      seconds_until_quiet_end ts quiet =
        (if ts.toSeconds < DateTime.toSeconds ⟨ts.day, q.«end», 0, 0⟩ then
          DateTime.toSeconds ⟨ts.day, q.«end», 0, 0⟩
        else
          DateTime.toSeconds ⟨ts.day + 1, q.«end», 0, 0⟩) - ts.toSeconds) ∧
    seconds_until_quiet_end ⟨0, 2, 0, 0⟩ (some ⟨1, 5⟩) = 10800 ∧
    seconds_until_quiet_end ⟨0, 23, 0, 0⟩ (some ⟨22, 6⟩) = 25200 := by
  refine ⟨?_, ?_, by decide, by decide⟩
  · intro h
    cases quiet with
    | none => rfl
    | some q => simp [seconds_until_quiet_end, h]
  · intro q hq hin
    subst hq
    simp only [seconds_until_quiet_end, hin]
    simp only [DateTime.toSeconds]
    split_ifs <;> simp_all <;> omega

/-- Witness for C7: the theorem applied at the wrapping window `(22,6)` at
23:00 (inside the window) and at window `(1,5)` at noon (outside). -/
theorem seconds_until_quiet_end_spec_witness :
    (seconds_until_quiet_end ⟨0, 23, 0, 0⟩ (some ⟨22, 6⟩) =
      (if DateTime.toSeconds ⟨0, 23, 0, 0⟩ < DateTime.toSeconds ⟨(0 : ℤ), 6, 0, 0⟩ then
        DateTime.toSeconds ⟨(0 : ℤ), 6, 0, 0⟩
      else
        DateTime.toSeconds ⟨(0 : ℤ) + 1, 6, 0, 0⟩) - DateTime.toSeconds ⟨0, 23, 0, 0⟩) ∧
    seconds_until_quiet_end ⟨0, 12, 0, 0⟩ (some ⟨1, 5⟩) = 0 :=
  ⟨(seconds_until_quiet_end_spec ⟨0, 23, 0, 0⟩ (some ⟨22, 6⟩)).2.1 ⟨22, 6⟩ rfl (by decide),
   (seconds_until_quiet_end_spec ⟨0, 12, 0, 0⟩ (some ⟨1, 5⟩)).1 (by decide)⟩

/-- Minimal JSON value model for the bodies handled by `remote.py` and
`weather/api.py` (Python `json` values: `None`, `bool`, integers, strings,
lists, and objects as association lists; float payloads do not occur in the
claim-relevant paths). -/
inductive JVal where
  | null
  | bool (b : Bool)
  | num (n : ℤ)
  | str (s : String)
  | arr (xs : List JVal)
  | obj (fields : List (String × JVal))
deriving Repr

/-- Python truthiness (`bool(...)`) of a JSON value. -/
def JVal.truthy : JVal → Bool
  | .null => false
  | .bool b => b
  | .num n => n != 0
  | .str s => s != ""
  | .arr xs => !xs.isEmpty
  | .obj fs => !fs.isEmpty

/-- Python `dict.get(key, default)` on a JSON object's fields. -/
def dictGet (fs : List (String × JVal)) (k : String) (default : JVal) : JVal :=
  (fs.lookup k).getD default

/-- Python subscript `value[key]` for a string key: `KeyError` when the key is missing from
an object, `TypeError` when the value is not subscriptable by a string
(lists, numbers, booleans, `None`, and — coarsely — strings, whose
character result would raise `TypeError` at the next string subscript
anyway). -/
def JVal.getItemStr : JVal → String → Except PyError JVal
  | .obj fs, k =>
    match fs.lookup k with
    | some v => Except.ok v
    | none => Except.error .keyError
  | _, _ => Except.error .typeError

/-- Python subscript `value[i]` for a non-negative integer index: `IndexError` past the end
of a list, `KeyError` on an object (our objects have only string keys),
`TypeError` otherwise. -/
def JVal.getItemIdx : JVal → ℕ → Except PyError JVal
  | .arr xs, i =>
    match xs.get? i with
    | some v => Except.ok v
    | none => Except.error .indexError
  | .obj _, _ => Except.error .keyError
  | _, _ => Except.error .typeError

/-- Everything observable about one `requests.get` call: an exception
(`RequestException`: timeout, connection error, ...), or a response with a
status code and a body (`none` when `resp.json()` would raise
`ValueError`, i.e. the body is not valid JSON). -/
inductive HttpOutcome where
  | exc
  | resp (status : ℕ) (body : Option JVal)
deriving Repr

/-- Embeds `HttpWakeStateProvider.should_stay_awake` (remote.py) as a function of
the HTTP outcome: network errors and JSON parse errors are caught
(`except (ValueError, RequestException)`) and yield `False`; non-200 yields
`False`; on a JSON object the result is `bool(data.get("awake", False))`;
on a 200 response whose JSON is not an object, `data.get` raises an
uncaught `AttributeError`. -/
def HttpWakeStateProvider.should_stay_awake (outcome : HttpOutcome) : Except PyError Bool :=
  match outcome with
  | .exc => Except.ok false
  | .resp status body =>
    if status ≠ 200 then Except.ok false
    else
      match body with
      | none => Except.ok false
      | some (JVal.obj fs) => Except.ok (dictGet fs "awake" (JVal.bool false)).truthy
      | some _ => Except.error .attributeError

/-- The two provider shapes of remote.py. -/
inductive WakeStateProvider where
  | http (url : String)
  | alwaysAwake
deriving DecidableEq, Repr

/-- Provider dispatch: `AlwaysAwakeProvider.should_stay_awake` returns
`True` without consulting the network (the result ignores the
`HttpOutcome` argument); the HTTP provider behaves as
`HttpWakeStateProvider.should_stay_awake`. -/
def WakeStateProvider.should_stay_awake :
    WakeStateProvider → HttpOutcome → Except PyError Bool
  | .alwaysAwake, _ => Except.ok true
  | .http _, outcome => HttpWakeStateProvider.should_stay_awake outcome

/-- Embeds `create_wake_state_provider` (remote.py): the empty string is falsy,
so it yields `AlwaysAwakeProvider`; otherwise an `HttpWakeStateProvider`
for the URL. -/
def create_wake_state_provider (url : String) : WakeStateProvider :=
  if url = "" then .alwaysAwake else .http url

/-- C4 (code-bug exhibit): on HTTP 200 with body `{"awake": 1}` — the
`awake` key present but its value not boolean `true` — the code returns
`True` via `bool(data.get("awake", False))`, contradicting both the claim
and the function's own docstring ("True only if endpoint explicitly
returns {"awake": true}"). -/
theorem should_stay_awake_truthy_nonbool_bug :
    HttpWakeStateProvider.should_stay_awake
        (HttpOutcome.resp 200 (some (JVal.obj [("awake", JVal.num 1)]))) =
      Except.ok true ∧
    HttpWakeStateProvider.should_stay_awake
        (HttpOutcome.resp 200 (some (JVal.obj [("awake", JVal.str "false")]))) =
      Except.ok true := by
  constructor <;> rfl

/-- Outcome of the air-pollution `requests.get` in
`WeatherAPI.fetch_air_quality`: a `RequestException`, or a response with
status code and body (`none` = `resp.json()` raises `ValueError`). -/
inductive AqiOutcome where
  | netError
  | resp (status : ℕ) (body : Option JVal)
deriving Repr

/-- The failure outcomes C8 enumerates: network failure, non-200 status,
or a body that cannot be parsed as JSON. -/
def AqiOutcome.isFailure : AqiOutcome → Bool
  | .netError => true
  | .resp status body => decide (status ≠ 200) || body.isNone

/-- The `aqi_labels` list of `fetch_air_quality`. -/
def aqi_labels : List String := ["", "Good", "Fair", "Moderate", "Poor", "Very Poor"]

/-- Python list subscript `aqi_labels[aqi_value]` with a JSON value as
index: integers (and booleans, which are `int` in Python) index the list,
with negative indices counting from the end and `IndexError` out of range;
any other value raises `TypeError`. -/
def pyListSubscript (xs : List String) (v : JVal) : Except PyError String :=
  match v with
  | .num n =>
    if 0 ≤ n then
      match xs.get? n.toNat with
      | some s => Except.ok s
      | none => Except.error .indexError
    else
      match xs.get? (n + xs.length).toNat with
      | some s => if 0 ≤ n + (xs.length : ℤ) then Except.ok s else Except.error .indexError
      | none => Except.error .indexError
  | .bool b =>
    match xs.get? (if b then 1 else 0) with
    | some s => Except.ok s
    | none => Except.error .indexError
  | _ => Except.error .typeError

/-- The `except (KeyError, IndexError)` handler around the extraction in
`fetch_air_quality`: those two errors degrade to `{"aqi": "N/A"}`, any
other exception propagates. -/
def catchKeyIndex (r : Except PyError (List (String × JVal))) :
    Except PyError (List (String × JVal)) :=
  match r with
  | .error .keyError => Except.ok [("aqi", JVal.str "N/A")]
  | .error .indexError => Except.ok [("aqi", JVal.str "N/A")]
  | r => r

/-- Embeds `WeatherAPI.fetch_air_quality` (weather/api.py): network errors and
non-200 responses return `{"aqi": "N/A"}`; on a 200 response,
`resp.json()` raising `ValueError` is *not* caught here; otherwise
`data["list"][0]["main"]["aqi"]` is extracted, labelled through
`aqi_labels`, and combined with `data["list"][0]["components"]`, with
`KeyError`/`IndexError` degrading to `{"aqi": "N/A"}`. -/
def fetch_air_quality (o : AqiOutcome) : Except PyError (List (String × JVal)) :=
  match o with
  | .netError => Except.ok [("aqi", JVal.str "N/A")]
  | .resp status body =>
    if status ≠ 200 then Except.ok [("aqi", JVal.str "N/A")]
    else
      match body with
      | none => Except.error .valueError
      | some data =>
        catchKeyIndex (do
          let lst ← data.getItemStr "list"
          let first ← lst.getItemIdx 0
          let main ← first.getItemStr "main"
          let aqi_value ← main.getItemStr "aqi"
          let label ← pyListSubscript aqi_labels aqi_value
          let components ← first.getItemStr "components"
          pure [("aqi", JVal.str label), ("aqi_value", aqi_value),
                ("components", components)])

/-- The air-quality merge step of `WeatherAPI.fetch_weather`: the call to
`fetch_air_quality` sits in a `try`/`except Exception` block, so *any*
exception degrades to `{"aqi": "N/A", "aqi_value": 0}`; on success the
`air_quality` field is built with `aqi_raw.get(..., default)`.  The
function is total: an air-quality failure never propagates out of
`fetch_weather`. -/
def fetch_weather_air_quality_field (o : AqiOutcome) : List (String × JVal) :=
  match fetch_air_quality o with
  | .ok aqi_raw =>
    [("aqi", dictGet aqi_raw "aqi" (JVal.str "N/A")),
     ("aqi_value", dictGet aqi_raw "aqi_value" (JVal.num 0)),
     ("components", dictGet aqi_raw "components" JVal.null)]
  | .error _ => [("aqi", JVal.str "N/A"), ("aqi_value", JVal.num 0)]

/-- C8: for every failing air-quality outcome (network failure, non-200
status, unparseable body) the weather response carries the placeholder
"N/A" for air quality; and for *every* outcome whatsoever the merge step
is total and produces an `aqi` entry, so an air-quality failure never
makes the overall weather fetch raise or return an error. -/
theorem air_quality_best_effort (o : AqiOutcome) :
    (o.isFailure = true →
      (fetch_weather_air_quality_field o).lookup "aqi" = some (JVal.str "N/A")) ∧
    ((fetch_weather_air_quality_field o).lookup "aqi").isSome = true := by
  constructor
  · intro hfail
    cases o with
    | netError => rfl
    | resp status body =>
      simp only [AqiOutcome.isFailure, Bool.or_eq_true, decide_eq_true_eq,
        Option.isNone_iff_eq_none] at hfail
      rcases hfail with h | h
      · simp [fetch_weather_air_quality_field, fetch_air_quality, if_pos h, dictGet,
          List.lookup]
      · subst h
        by_cases h200 : status ≠ 200 <;>
          simp [fetch_weather_air_quality_field, fetch_air_quality, h200, dictGet,
            List.lookup]
  · unfold fetch_weather_air_quality_field
    cases h : fetch_air_quality o <;> simp [List.lookup, dictGet]

/-- Witness for C8: the theorem applied at a concrete failing outcome
(HTTP 404). -/
theorem air_quality_best_effort_witness :
    (fetch_weather_air_quality_field (AqiOutcome.resp 404 none)).lookup "aqi" =
      some (JVal.str "N/A") :=
  (air_quality_best_effort (AqiOutcome.resp 404 none)).1 (by decide)

/-- Embeds `UnitConverter.DIRECTIONS` (weather/utils/units.py). -/
def DIRECTIONS : List String :=
  ["N", "NNE", "NE", "ENE", "E", "ESE", "SE", "SSE",
   "S", "SSW", "SW", "WSW", "W", "WNW", "NW", "NNW"]

/-- Python float `%` with positive divisor: `x % y = x - y*⌊x/y⌋` (result
has the sign of the divisor).  The float arithmetic of
`deg_to_cardinal` is exact on these values, so `ℚ` models it. -/
def pyFloatMod (x y : ℚ) : ℚ := x - y * ⌊x / y⌋

/-- Python `int(...)`: truncation toward zero. -/
def pyInt (x : ℚ) : ℤ := if 0 ≤ x then ⌊x⌋ else -⌊-x⌋

/-- Embeds `UnitConverter.deg_to_cardinal` (weather/utils/units.py):
`DIRECTIONS[int((deg % 360) / 22.5 + 0.5) % 16]`, with `22.5 = 45/2`. -/
def deg_to_cardinal (deg : ℚ) : String :=
  DIRECTIONS.getD (pyInt (pyFloatMod deg 360 / (45 / 2 : ℚ) + 1 / 2) % 16).toNat "N"

/-- The index the spec describes: `round(deg/22.5) mod 16`, with `round`
the round-half-up of Mathlib (`round x = ⌊x + 1/2⌋`) and `mod` the
non-negative remainder. -/
def spec_compass_index (deg : ℚ) : ℤ := round (deg / (45 / 2 : ℚ)) % 16

/-- C9: for every wind bearing `deg`, `deg_to_cardinal` returns the entry
of the 16-point direction list at index `round(deg/22.5) mod 16`; in
particular 0° → N, 45° → NE, 359° → N. -/
theorem deg_to_cardinal_spec (deg : ℚ) :
    deg_to_cardinal deg = DIRECTIONS.getD (spec_compass_index deg).toNat "N" ∧
    deg_to_cardinal 0 = "N" ∧
    deg_to_cardinal 45 = "NE" ∧
    deg_to_cardinal 359 = "N" := by
  refine ⟨?_,
    by norm_num [deg_to_cardinal, pyInt, pyFloatMod, Rat.floor_def]; rfl,
    by norm_num [deg_to_cardinal, pyInt, pyFloatMod, Rat.floor_def]; rfl,
    by norm_num [deg_to_cardinal, pyInt, pyFloatMod, Rat.floor_def]; rfl⟩
  have hq : ((⌊deg / (360 : ℚ)⌋ : ℚ)) ≤ deg / 360 := Int.floor_le _
  have hmod : (0 : ℚ) ≤ pyFloatMod deg 360 := by
    unfold pyFloatMod
    nlinarith [hq]
  have hnonneg : (0 : ℚ) ≤ pyFloatMod deg 360 / (45 / 2 : ℚ) + 1 / 2 := by
    have := div_nonneg hmod (by norm_num : (0 : ℚ) ≤ 45 / 2)
    linarith
  have harg : pyFloatMod deg 360 / (45 / 2 : ℚ) + 1 / 2 =
      (deg / (45 / 2 : ℚ) + 1 / 2) - ((16 * ⌊deg / (360 : ℚ)⌋ : ℤ) : ℚ) := by
    unfold pyFloatMod
    push_cast
    ring
  have hfloor : pyInt (pyFloatMod deg 360 / (45 / 2 : ℚ) + 1 / 2) =
      ⌊deg / (45 / 2 : ℚ) + 1 / 2⌋ - 16 * ⌊deg / (360 : ℚ)⌋ := by
    rw [pyInt, if_pos hnonneg, harg, Int.floor_sub_int]
  unfold deg_to_cardinal spec_compass_index
  rw [hfloor, round_eq]
  congr 2
  omega

/-- Mutable display state the scheduler loop reads and writes
(`self.display.error_streak`, `self.display.last_full_refresh`). -/
structure SchedState where
  error_streak : ℕ
  last_full_refresh : DateTime
deriving DecidableEq, Repr

/-- The per-iteration environment of `Scheduler.run`: the current time,
the outcome of this iteration's stay-awake HTTP request, whether
`fetch_and_render` succeeds, and the battery state of charge. -/
structure IterInput where
  now : DateTime
  wake_outcome : HttpOutcome
  fetch_ok : Bool
  soc : ℤ

/-- How one iteration of the `while True` loop of `Scheduler.run` ends. -/
inductive IterAction where
  | crash (e : PyError)
  | quiet_sleep (secs : ℤ)
  | backoff_sleep (secs : ℕ)
  | exit_once
  | power_off (sleep_min : ℕ)
  | sleep (secs : ℕ)
deriving DecidableEq, Repr

/-- Discriminator for the quiet-hours sleep branch. -/
def IterAction.isQuietSleep : IterAction → Bool
  | .quiet_sleep _ => true
  | _ => false

/-- Embeds `RefreshSettings.full_refresh_interval = timedelta(hours=6)`, in
seconds. -/
def full_refresh_interval_seconds : ℤ := 6 * 3600

/-- The tail of a loop iteration after `fetch_and_render` and the
error-streak bookkeeping: break when `once`, otherwise compute the
battery-scaled sleep and either power off or sleep normally. -/
def scheduler_after_fetch (cfg : WeatherConfig) (once : Bool) (st : SchedState)
    (inp : IterInput) : SchedState × IterAction :=
  if once then (st, .exit_once)
  else
    let sleep_min := get_refresh_delay_minutes cfg.refresh_minutes inp.soc
    if should_power_off cfg inp.soc inp.now then (st, .power_off sleep_min)
    else (st, .sleep (sleep_min * 60))

/-- One iteration of the loop body of `Scheduler.run` (scheduler.py):
re-create the wake-state provider from the resolved URL and query it
(an uncaught exception from the provider crashes the loop); a true
stay-awake flag forces `in_quiet = False`; in quiet hours, sleep until
they end and restart; otherwise fetch and render, resetting the error
streak on success (and bumping `last_full_refresh` when a full refresh
was due, modelled at the iteration's `now`), or incrementing it on
failure with a `4×` back-off restart at streak ≥ 3; then break if `once`,
else power off or sleep by the battery-scaled delay. -/
def scheduler_iter (cfg : WeatherConfig) (stay_awake_url : String) (once : Bool)
    (st : SchedState) (inp : IterInput) : SchedState × IterAction :=
  let wake_provider := create_wake_state_provider stay_awake_url
  match wake_provider.should_stay_awake inp.wake_outcome with
  | .error e => (st, .crash e)
  | .ok stay =>
    let in_quiet := if stay then false else in_quiet_hours inp.now cfg.quiet_hours
    if in_quiet then
      (st, .quiet_sleep (seconds_until_quiet_end inp.now cfg.quiet_hours))
    else
      let full_refresh_needed :=
        decide (full_refresh_interval_seconds <
          inp.now.toSeconds - st.last_full_refresh.toSeconds)
      if inp.fetch_ok then
        scheduler_after_fetch cfg once
          { st with
            error_streak := 0,
            last_full_refresh :=
              if full_refresh_needed then inp.now else st.last_full_refresh } inp
      else
        let st' : SchedState := { st with error_streak := st.error_streak + 1 }
        if 3 ≤ st'.error_streak then
          (st', .backoff_sleep (cfg.refresh_minutes * 4 * 60))
        else scheduler_after_fetch cfg once st' inp

/-- Helper: `scheduler_after_fetch` never changes the display state. -/
theorem scheduler_after_fetch_fst (cfg : WeatherConfig) (once : Bool)
    (st : SchedState) (inp : IterInput) :
    (scheduler_after_fetch cfg once st inp).1 = st := by
  unfold scheduler_after_fetch
  split_ifs <;> rfl

/-- Helper: `scheduler_after_fetch` never produces the quiet-hours sleep action. -/
theorem scheduler_after_fetch_not_quiet (cfg : WeatherConfig) (once : Bool)
    (st : SchedState) (inp : IterInput) :
    (scheduler_after_fetch cfg once st inp).2.isQuietSleep = false := by
  unfold scheduler_after_fetch
  split_ifs <;> rfl

/-- C5: in every iteration whose fetch-render-display attempt runs and
fails (the stay-awake query answered without raising, and either the flag
was true or the time is outside quiet hours — so the fetch is reached —
and `fetch_ok = false`), the failure streak increments by one; when the
incremented streak reaches 3 or more, the iteration ends in the fixed
back-off sleep of `4× base interval` (so neither the battery-scaled sleep
nor the power-off decision is reached) and the streak stays positive;
moreover the streak transitions from positive to 0 only when the fetch
succeeded. -/
theorem scheduler_failure_backoff (cfg : WeatherConfig) (url : String) (once : Bool)
    (st : SchedState) (inp : IterInput) (b : Bool)
    (hp : (create_wake_state_provider url).should_stay_awake inp.wake_outcome =
      Except.ok b)
    (hq : b = true ∨ in_quiet_hours inp.now cfg.quiet_hours = false) :
    (inp.fetch_ok = false →
      (scheduler_iter cfg url once st inp).1.error_streak = st.error_streak + 1 ∧
      (3 ≤ st.error_streak + 1 →
        (scheduler_iter cfg url once st inp).2 =
          IterAction.backoff_sleep (cfg.refresh_minutes * 4 * 60) ∧
        0 < (scheduler_iter cfg url once st inp).1.error_streak)) ∧
    (0 < st.error_streak → (scheduler_iter cfg url once st inp).1.error_streak = 0 →
      inp.fetch_ok = true) := by
  have hiq : (if b then false else in_quiet_hours inp.now cfg.quiet_hours) = false := by
    rcases hq with h | h <;> simp [h]
  constructor
  · intro hf
    by_cases h3 : 3 ≤ st.error_streak + 1 <;>
      simp [scheduler_iter, hp, hiq, hf, h3, scheduler_after_fetch_fst]
  · intro hpos h0
    by_cases hf : inp.fetch_ok
    · exact hf
    · exfalso
      simp only [Bool.not_eq_true] at hf
      by_cases h3 : 3 ≤ st.error_streak + 1 <;>
          simp_all [scheduler_iter, hp, hiq, hf, h3, scheduler_after_fetch_fst] <;>
        split_ifs at h0 <;>
          simp_all [scheduler_after_fetch_fst]

/-- Witness for C5: the theorem applied at a concrete configuration with
the empty stay-awake URL (flag true), streak 2, and a failing fetch —
the incremented streak hits 3 and the back-off action fires; and at a
succeeding fetch from streak 3 — the only way back to streak 0. -/
theorem scheduler_failure_backoff_witness :
    (scheduler_iter ⟨120, 8, none, none⟩ "" false ⟨2, ⟨0, 0, 0, 0⟩⟩
        ⟨⟨0, 12, 0, 0⟩, HttpOutcome.exc, false, 50⟩).2 =
      IterAction.backoff_sleep (120 * 4 * 60) ∧
    (⟨⟨0, 12, 0, 0⟩, HttpOutcome.exc, true, 50⟩ : IterInput).fetch_ok = true :=
  ⟨(((scheduler_failure_backoff ⟨120, 8, none, none⟩ "" false ⟨2, ⟨0, 0, 0, 0⟩⟩
        ⟨⟨0, 12, 0, 0⟩, HttpOutcome.exc, false, 50⟩ true rfl (Or.inl rfl)).1
        rfl).2 (by decide)).1,
   (scheduler_failure_backoff ⟨120, 8, none, none⟩ "" false ⟨3, ⟨0, 0, 0, 0⟩⟩
        ⟨⟨0, 12, 0, 0⟩, HttpOutcome.exc, true, 50⟩ true rfl (Or.inl rfl)).2
        (by decide) (by decide)⟩

/-- C6: when the stay-awake flag resolves to true in an iteration, the
quiet-hours sleep branch is not taken and the iteration proceeds to the
fetch (its outcome is processed: streak reset on success, incremented on
failure), with no assumption on whether `now` lies inside the quiet
window; and the flag's effect does not persist: a following iteration
whose own query resolves to false, at a time inside the quiet window,
takes the quiet-hours sleep branch.  The flag is re-evaluated each
iteration by construction: `scheduler_iter` queries the provider built
from the URL anew, and `SchedState` carries no stay-awake field. -/
theorem scheduler_stay_awake_bypass (cfg : WeatherConfig) (url : String)
    (once : Bool) (st : SchedState) (inp : IterInput)
    (hp : (create_wake_state_provider url).should_stay_awake inp.wake_outcome =
      Except.ok true) :
    (scheduler_iter cfg url once st inp).2.isQuietSleep = false ∧
    (inp.fetch_ok = true → (scheduler_iter cfg url once st inp).1.error_streak = 0) ∧
    (inp.fetch_ok = false →
      (scheduler_iter cfg url once st inp).1.error_streak = st.error_streak + 1) ∧
    (∀ inp2 : IterInput,
      (create_wake_state_provider url).should_stay_awake inp2.wake_outcome =
        Except.ok false →
      in_quiet_hours inp2.now cfg.quiet_hours = true →
      (scheduler_iter cfg url once (scheduler_iter cfg url once st inp).1 inp2).2 =
        IterAction.quiet_sleep (seconds_until_quiet_end inp2.now cfg.quiet_hours)) := by
  refine ⟨?_, ?_, ?_, ?_⟩
  · cases hf : inp.fetch_ok <;>
      by_cases h3 : 3 ≤ st.error_streak + 1 <;>
        (simp [scheduler_iter, hp, hf, h3, IterAction.isQuietSleep];
          try exact scheduler_after_fetch_not_quiet _ _ _ _)
  · intro hf
    simp [scheduler_iter, hp, hf, scheduler_after_fetch_fst]
  · intro hf
    by_cases h3 : 3 ≤ st.error_streak + 1 <;>
      simp [scheduler_iter, hp, hf, h3, scheduler_after_fetch_fst]
  · intro inp2 hp2 hq2
    simp [scheduler_iter, hp2, hq2]

/-- Witness for C6: a configuration with quiet window 22-6, the current
time 23:00 inside it, and a 200 `{"awake": true}` response: the iteration
does not take the quiet-hours branch; the next iteration's query fails
(timeout) and quiet hours resume. -/
theorem scheduler_stay_awake_bypass_witness :
    (scheduler_iter ⟨120, 8, some ⟨22, 6⟩, none⟩ "http://w" false ⟨0, ⟨0, 0, 0, 0⟩⟩
        ⟨⟨0, 23, 0, 0⟩, HttpOutcome.resp 200 (some (JVal.obj [("awake", JVal.bool true)])),
          true, 50⟩).2.isQuietSleep = false ∧
    (scheduler_iter ⟨120, 8, some ⟨22, 6⟩, none⟩ "http://w" false
        (scheduler_iter ⟨120, 8, some ⟨22, 6⟩, none⟩ "http://w" false ⟨0, ⟨0, 0, 0, 0⟩⟩
          ⟨⟨0, 23, 0, 0⟩, HttpOutcome.resp 200 (some (JVal.obj [("awake", JVal.bool true)])),
            true, 50⟩).1
        ⟨⟨1, 23, 0, 0⟩, HttpOutcome.exc, true, 50⟩).2 =
      IterAction.quiet_sleep
        (seconds_until_quiet_end ⟨1, 23, 0, 0⟩ (some ⟨22, 6⟩)) :=
  ⟨(scheduler_stay_awake_bypass ⟨120, 8, some ⟨22, 6⟩, none⟩ "http://w" false
      ⟨0, ⟨0, 0, 0, 0⟩⟩
      ⟨⟨0, 23, 0, 0⟩, HttpOutcome.resp 200 (some (JVal.obj [("awake", JVal.bool true)])),
        true, 50⟩ rfl).1,
   (scheduler_stay_awake_bypass ⟨120, 8, some ⟨22, 6⟩, none⟩ "http://w" false
      ⟨0, ⟨0, 0, 0, 0⟩⟩
      ⟨⟨0, 23, 0, 0⟩, HttpOutcome.resp 200 (some (JVal.obj [("awake", JVal.bool true)])),
        true, 50⟩ rfl).2.2.2
      ⟨⟨1, 23, 0, 0⟩, HttpOutcome.exc, true, 50⟩ rfl rfl⟩

/-- C10: the factory applied to the empty string yields the always-awake
provider; that provider's check is constantly true — the result is the
same for every HTTP outcome, i.e. it consults no network request; and with
the resolved stay-awake URL empty, no scheduler iteration ever takes the
quiet-hours sleep branch. -/
theorem empty_url_always_awake (cfg : WeatherConfig) (once : Bool)
    (st : SchedState) (inp : IterInput) :
    create_wake_state_provider "" = WakeStateProvider.alwaysAwake ∧
    (∀ o : HttpOutcome,
      WakeStateProvider.alwaysAwake.should_stay_awake o = Except.ok true) ∧
    (scheduler_iter cfg "" once st inp).2.isQuietSleep = false := by
  refine ⟨rfl, fun _ => rfl, ?_⟩
  cases hf : inp.fetch_ok <;>
    by_cases h3 : 3 ≤ st.error_streak + 1 <;>
      (simp [scheduler_iter, create_wake_state_provider,
          WakeStateProvider.should_stay_awake, hf, h3, IterAction.isQuietSleep];
        try exact scheduler_after_fetch_not_quiet _ _ _ _)

end RpiWeather
